import Mathlib

/-!
Signal Box analyzer: shallow embedding and verification.

A shallow embedding, in Lean 4, of the cost-calculation, framework-detection
and optimization pipeline of the `signal-box-analyzer` repository
(`src/analyzer/calculator.py`, `src/analyzer/optimizer.py`,
`src/analyzer/detectors/base.py`, `src/analyzer/detectors/autogen.py`,
`src/analyzer/detectors/langchain.py`), together with theorems settling the
specification's claims about it.

Conventions of the embedding:
* Python `float` arithmetic is modelled over `ℚ` (every literal appearing in
  the source is decimal, hence exactly representable); Python `int` is `ℤ`.
* Python `int(x)` (truncation toward zero) is `pyInt`.
* Python float division raises `ZeroDivisionError` on a zero divisor, so the
  division sites that may see a zero divisor are modelled with `pydiv`, and
  the functions containing them return `Option` (`none` = the exception).
* Display-only fields (audit strings built with `f"...:.4f"` formatting,
  `step_id`, timestamps, free-text explanations and recommendations) are
  omitted from the records: their content depends on Python float `repr`
  and on the wall clock, and no numeric behaviour of the pipeline reads them.
* Python dictionaries with heterogeneous values (`Component.metadata`,
  workflow-pattern dictionaries) are modelled as association lists whose
  value type covers exactly the shapes the embedded code inspects.
-/

/-- Python `int(x)`: truncation toward zero of a rational. -/
def pyInt (q : ℚ) : ℤ :=
  q.num.tdiv q.den

/-- Python's substring test `pat in s`. -/
def strContains (s pat : String) : Bool :=
  decide (pat.data <:+: s.data)

/-- Python float division `a / b`, which raises `ZeroDivisionError`
(modelled as `none`) when `b = 0`. -/
def pydiv (a b : ℚ) : Option ℚ :=
  if b = 0 then none else some (a / b)

/-- Pricing information for a model (`ModelPricing` in `calculator.py`). -/
structure ModelPricing where
  model_id : String
  provider : String
  input_cost_per_1k : ℚ
  output_cost_per_1k : ℚ
  context_window : ℤ
  notes : String
deriving Repr, DecidableEq

/-- The static pricing table built by `CostCalculator._initialize_pricing`. -/
def model_pricing (model : String) : Option ModelPricing :=
  if model = "gpt-4" then
    some ⟨"gpt-4", "openai", 3/100, 6/100, 8192,
      "Most capable, best for complex tasks"⟩
  else if model = "gpt-4-turbo" then
    some ⟨"gpt-4-turbo", "openai", 1/100, 3/100, 128000,
      "Faster, cheaper GPT-4 variant"⟩
  else if model = "gpt-4-turbo-preview" then
    some ⟨"gpt-4-turbo-preview", "openai", 1/100, 3/100, 128000,
      "Preview version of GPT-4 Turbo"⟩
  else if model = "gpt-3.5-turbo" then
    some ⟨"gpt-3.5-turbo", "openai", 5/10000, 15/10000, 16385,
      "Fast, good for simple tasks"⟩
  else if model = "gpt-3.5-turbo-16k" then
    some ⟨"gpt-3.5-turbo-16k", "openai", 3/1000, 4/1000, 16385,
      "Extended context GPT-3.5"⟩
  else if model = "claude-3-opus" then
    some ⟨"claude-3-opus", "anthropic", 15/1000, 75/1000, 200000,
      "Most capable Claude model"⟩
  else if model = "claude-3-sonnet" then
    some ⟨"claude-3-sonnet", "anthropic", 3/1000, 15/1000, 200000,
      "Balanced performance and cost"⟩
  else if model = "claude-3-haiku" then
    some ⟨"claude-3-haiku", "anthropic", 25/100000, 125/100000, 200000,
      "Fast, efficient for simple tasks"⟩
  else if model = "claude-2.1" then
    some ⟨"claude-2.1", "anthropic", 8/1000, 24/1000, 200000,
      "Previous generation Claude"⟩
  else if model = "text-embedding-ada-002" then
    some ⟨"text-embedding-ada-002", "openai", 1/10000, 1/10000, 8191,
      "Embedding model"⟩
  else if model = "text-davinci-003" then
    some ⟨"text-davinci-003", "openai", 2/100, 2/100, 4097,
      "Legacy completion model"⟩
  else
    none

/-- Token estimate with breakdown (`TokenEstimate` in `calculator.py`);
the `reasoning` audit string is display-only and omitted. -/
structure TokenEstimate where
  input_tokens : ℤ
  output_tokens : ℤ
  confidence : ℚ
deriving Repr, DecidableEq

/-- `CostCalculator.token_rules` (operation-specific input-token density
multipliers), as a dictionary lookup. -/
def token_rules (operation_type : String) : Option ℚ :=
  if operation_type = "system_prompt" then some (12/10)
  else if operation_type = "code_generation" then some (25/10)
  else if operation_type = "summarization" then some (5/10)
  else if operation_type = "qa" then some (8/10)
  else if operation_type = "classification" then some (1/10)
  else none

/-- `CostCalculator.default_output_ratio`. -/
def default_output_ratio : ℚ := 3/10

/-- `CostCalculator.estimate_tokens`: heuristic token estimate from text
length, operation-specific density multiplier and output ratio. -/
def estimate_tokens (text : String) (operation_type : String) : TokenEstimate :=
  let base_tokens : ℤ := (text.length : ℤ) / 4
  let multiplier : ℚ := (token_rules operation_type).getD 1
  let input_tokens : ℤ := pyInt ((base_tokens : ℚ) * multiplier)
  let output_ratio : ℚ :=
    if operation_type = "code_generation" then 25/10
    else if operation_type = "summarization" then 3/10
    else if operation_type = "classification" then 1/10
    else if operation_type = "qa" then 8/10
    else if operation_type = "general" then default_output_ratio
    else default_output_ratio
  let output_tokens : ℤ := pyInt ((input_tokens : ℚ) * output_ratio)
  { input_tokens := input_tokens
    output_tokens := output_tokens
    confidence := if operation_type ≠ "general" then 8/10 else 6/10 }

/-- Single cost calculation (`CostCalculation` in `calculator.py`);
`step_id`, `timestamp`, the `*_calculation` audit strings, `description`
and the `assumptions` dictionary are display/metadata-only and omitted. -/
structure CostCalculation where
  input_tokens : ℤ
  output_tokens : ℤ
  model : String
  input_price_per_1k : ℚ
  output_price_per_1k : ℚ
  input_cost : ℚ
  output_cost : ℚ
  total_cost : ℚ
deriving Repr, DecidableEq, Inhabited

/-- Result of applying an optimization (`OptimizationResult` in
`calculator.py`); the `explanation` and `calculation_details` strings are
display-only and omitted. -/
structure OptimizationResult where
  optimization_type : String
  original_cost : ℚ
  optimized_cost : ℚ
  savings : ℚ
  savings_percent : ℚ
deriving Repr, DecidableEq, Inhabited

/-- `CostCalculator.calculate_cost`: price lookup with silent fallback to
`gpt-3.5-turbo` pricing (annotating the model string), then per-1K-token
cost arithmetic. -/
def calculate_cost (input_tokens output_tokens : ℤ) (model : String) :
    CostCalculation :=
  let found := model_pricing model
  let pricing := match found with
    | some p => p
    | none => ⟨"gpt-3.5-turbo", "openai", 5/10000, 15/10000, 16385,
        "Fast, good for simple tasks"⟩
  let model' := match found with
    | some _ => model
    | none => model ++ " (using gpt-3.5-turbo pricing)"
  let input_cost := ((input_tokens : ℚ) / 1000) * pricing.input_cost_per_1k
  let output_cost := ((output_tokens : ℚ) / 1000) * pricing.output_cost_per_1k
  { input_tokens := input_tokens
    output_tokens := output_tokens
    model := model'
    input_price_per_1k := pricing.input_cost_per_1k
    output_price_per_1k := pricing.output_cost_per_1k
    input_cost := input_cost
    output_cost := output_cost
    total_cost := input_cost + output_cost }

/-- Confidence levels for framework detection (`FrameworkConfidence`). -/
inductive FrameworkConfidence where
  | HIGH
  | MEDIUM
  | LOW
  | NONE
deriving Repr, DecidableEq

/-- `BaseDetector.calculate_confidence`: weighted evidence score from the
four match counts, and the tier thresholds. Argument order follows the
source: file, code, import, config matches. -/
def calculate_confidence (file_matches code_matches import_matches
    config_matches : ℕ) : FrameworkConfidence × ℚ :=
  let score : ℚ :=
    (if config_matches > 0 then 40 else 0)
    + (if import_matches > 0 then 35 else 0)
    + (if code_matches > 0 then min 20 ((code_matches : ℚ) * 5) else 0)
    + (if file_matches > 0 then min 5 ((file_matches : ℚ) * 1) else 0)
  let confidence :=
    if score ≥ 75 then FrameworkConfidence.HIGH
    else if score ≥ 40 then FrameworkConfidence.MEDIUM
    else if score ≥ 10 then FrameworkConfidence.LOW
    else FrameworkConfidence.NONE
  (confidence, min 100 score)

/-- `CostCalculator._apply_model_substitution`: recompute the cost under
`target_model`; the savings-percent division is guarded by
`if original_calc.total_cost > 0`, so this function is total. -/
def applyModelSubstitution (original_calc : CostCalculation)
    (target_model : String) : CostCalculation × OptimizationResult :=
  let new_calc := calculate_cost original_calc.input_tokens
    original_calc.output_tokens target_model
  let savings := original_calc.total_cost - new_calc.total_cost
  let savings_percent :=
    if original_calc.total_cost > 0 then
      savings / original_calc.total_cost * 100
    else 0
  (new_calc,
   { optimization_type := "model_substitution"
     original_cost := original_calc.total_cost
     optimized_cost := new_calc.total_cost
     savings := savings
     savings_percent := savings_percent })

/-- `CostCalculator._apply_caching`: blended expected cost, a derived record
whose token counts are scaled by `1 - cache_hit_rate` and whose costs are a
40/60 split of the blended cost. The savings-percent division by
`original_calc.total_cost` is unguarded in the source, so the function
returns `none` (`ZeroDivisionError`) when that cost is zero. -/
def applyCaching (original_calc : CostCalculation) (cache_hit_rate : ℚ) :
    Option (CostCalculation × OptimizationResult) :=
  let cache_cost_per_hit : ℚ := 1/10000
  let expected_cost := (1 - cache_hit_rate) * original_calc.total_cost
    + cache_hit_rate * cache_cost_per_hit
  let new_calc : CostCalculation :=
    { input_tokens := pyInt ((original_calc.input_tokens : ℚ) * (1 - cache_hit_rate))
      output_tokens := pyInt ((original_calc.output_tokens : ℚ) * (1 - cache_hit_rate))
      model := original_calc.model
      input_price_per_1k := original_calc.input_price_per_1k
      output_price_per_1k := original_calc.output_price_per_1k
      input_cost := expected_cost * (4/10)
      output_cost := expected_cost * (6/10)
      total_cost := expected_cost }
  let savings := original_calc.total_cost - expected_cost
  match pydiv savings original_calc.total_cost with
  | none => none
  | some q =>
    some (new_calc,
      { optimization_type := "caching"
        original_cost := original_calc.total_cost
        optimized_cost := expected_cost
        savings := savings
        savings_percent := q * 100 })

/-- `CostCalculator._apply_token_reduction`: scale both token counts by
`1 - reduction_rate` and recompute the cost via `calculate_cost`. The
savings-percent division by `original_calc.total_cost` is unguarded in the
source, so the function returns `none` (`ZeroDivisionError`) when that cost
is zero. -/
def applyTokenReduction (original_calc : CostCalculation)
    (reduction_rate : ℚ) : Option (CostCalculation × OptimizationResult) :=
  let reduced_input := pyInt ((original_calc.input_tokens : ℚ) * (1 - reduction_rate))
  let reduced_output := pyInt ((original_calc.output_tokens : ℚ) * (1 - reduction_rate))
  let new_calc := calculate_cost reduced_input reduced_output original_calc.model
  let savings := original_calc.total_cost - new_calc.total_cost
  match pydiv savings original_calc.total_cost with
  | none => none
  | some q =>
    some (new_calc,
      { optimization_type := "token_reduction"
        original_cost := original_calc.total_cost
        optimized_cost := new_calc.total_cost
        savings := savings
        savings_percent := q * 100 })

/-- `CostCalculator.apply_optimization`: dispatch on the optimization type;
an unknown type yields the identity optimization. The keyword parameters of
the three concrete optimizations are passed explicitly. -/
def apply_optimization (original_calc : CostCalculation)
    (optimization_type : String) (target_model : String)
    (cache_hit_rate reduction_rate : ℚ) :
    Option (CostCalculation × OptimizationResult) :=
  if optimization_type = "model_substitution" then
    some (applyModelSubstitution original_calc target_model)
  else if optimization_type = "caching" then
    applyCaching original_calc cache_hit_rate
  else if optimization_type = "token_reduction" then
    applyTokenReduction original_calc reduction_rate
  else
    some (original_calc,
      { optimization_type := "none"
        original_cost := original_calc.total_cost
        optimized_cost := original_calc.total_cost
        savings := 0
        savings_percent := 0 })

/-- A value stored in `Component.metadata` (a Python `Dict[str, Any]`):
a string, Python `None`, or a value of any other type (dict, int, ...) —
the embedded code only ever calls `.lower()` on these, which succeeds
exactly on strings. -/
inductive MetaVal where
  | str (v : String)
  | null
  | other
deriving Repr, DecidableEq

/-- Detected AI component (`Component` in `detectors/base.py`). -/
structure Component where
  name : String
  type : String
  file_path : String
  line_number : ℤ
  model : Option String := none
  estimated_tokens : Option ℤ := none
  metadata : List (String × MetaVal) := []
deriving Repr, DecidableEq

/-- A workflow-pattern dictionary attached to a detection result. The
detectors emit `{'type': 'chat', 'from': ..., 'to': ...}`,
`{'type': 'groupchat', 'agents_count': ...}` and
`{'type': 'sequential', 'chains': [...]}` shapes; the fields the
optimization engine reads are modelled, with `none` for Python `None`. -/
structure WorkflowPattern where
  ptype : String
  chat_from : Option String := none
  chat_to : Option String := none
  chains : List String := []
deriving Repr, DecidableEq

/-- Result of framework detection (`DetectionResult` in
`detectors/base.py`). -/
structure DetectionResult where
  framework : String
  confidence : FrameworkConfidence
  version : Option String := none
  components : List Component := []
  file_patterns_matched : List String := []
  code_patterns_matched : List String := []
  imports_found : List String := []
  config_files : List String := []
  workflow_patterns : List WorkflowPattern := []
  confidence_score : ℚ := 0
deriving Repr, DecidableEq

/-- The framework-specific confidence bonuses added by
`AutoGenDetector.detect` (one pass over every file content; no clamping). -/
def autogen_confidence_bonus (contents : List String) : ℚ :=
  contents.foldl (fun acc content =>
    acc
    + (if strContains content "config_list"
         ∧ (strContains content "gpt-4" ∨ strContains content "gpt-3")
       then 10 else 0)
    + (if strContains content "TERMINATE" ∧ strContains content "initiate_chat"
       then 5 else 0)) 0

/-- The framework-specific confidence bonuses added by
`LangChainDetector.detect` (one pass over every file content; no clamping). -/
def langchain_confidence_bonus (contents : List String) : ℚ :=
  contents.foldl (fun acc content =>
    acc
    + (if strContains content "|"
         ∧ (strContains content "invoke" ∨ strContains content "stream")
       then 10 else 0)
    + (if strContains content "RunnablePassthrough"
         ∨ strContains content "RunnableParallel"
       then 15 else 0)
    + (if strContains content "FAISS" ∨ strContains content "Chroma"
         ∨ strContains content "Pinecone" ∨ strContains content "Weaviate"
       then 5 else 0)) 0

/-- The tier recomputation both concrete detectors perform after adding
their bonuses; when the score is below every threshold the confidence set
by the base pipeline is kept. -/
def recompute_confidence (score : ℚ) (prev : FrameworkConfidence) :
    FrameworkConfidence :=
  if score ≥ 75 then FrameworkConfidence.HIGH
  else if score ≥ 40 then FrameworkConfidence.MEDIUM
  else if score ≥ 10 then FrameworkConfidence.LOW
  else prev

/-- The token computation of `AutoGenDetector._extract_agent_info`
(`detectors/autogen.py` lines 184-187), taking the system message already
extracted from the syntax tree (`none` = agent created without one):
tokens start at 0 and the detector-base estimate is added only when the
message is truthy. `BaseDetector.estimate_tokens` with `is_prompt=True` is
`int((len(text) // 4) * 1.2)`. -/
def autogen_agent_estimated_tokens (system_message : Option String) : ℤ :=
  match system_message with
  | none => 0
  | some s =>
    if s = "" then 0
    else pyInt (((s.length : ℤ) / 4 : ℤ) * (12/10 : ℚ))

/-- Types of optimizations available (`OptimizationType` in
`optimizer.py`). -/
inductive OptimizationType where
  | MODEL_SUBSTITUTION
  | SEMANTIC_CACHING
  | TOKEN_REDUCTION
  | PARALLEL_EXECUTION
  | LOOP_PREVENTION
  | BATCH_PROCESSING
deriving Repr, DecidableEq

/-- A specific optimization strategy (`OptimizationStrategy` in
`optimizer.py`). -/
structure OptimizationStrategy where
  type : OptimizationType
  name : String
  description : String
  applicable_to : List String
  estimated_savings : ℚ
  implementation_notes : String
  priority : ℤ
deriving Repr, DecidableEq

/-- `OptimizationEngine._initialize_strategies`, entry 0. -/
def strategySmartModelRouting : OptimizationStrategy :=
  { type := OptimizationType.MODEL_SUBSTITUTION
    name := "Smart Model Routing"
    description := "Use cheaper models for simple tasks"
    applicable_to := ["agent", "chain", "llm"]
    estimated_savings := 7/10
    implementation_notes := "Analyze task complexity and route to appropriate model"
    priority := 1 }

/-- `OptimizationEngine._initialize_strategies`, entry 1. -/
def strategyIntelligentCaching : OptimizationStrategy :=
  { type := OptimizationType.SEMANTIC_CACHING
    name := "Intelligent Caching"
    description := "Cache similar queries and responses"
    applicable_to := ["agent", "chain", "llm"]
    estimated_savings := 15/100
    implementation_notes := "Use vector similarity for semantic matching"
    priority := 2 }

/-- `OptimizationEngine._initialize_strategies`, entry 2. -/
def strategyPromptOptimization : OptimizationStrategy :=
  { type := OptimizationType.TOKEN_REDUCTION
    name := "Prompt Optimization"
    description := "Reduce tokens through better prompting"
    applicable_to := ["agent", "chain", "prompt"]
    estimated_savings := 2/10
    implementation_notes := "Compress prompts, remove redundancy"
    priority := 3 }

/-- `OptimizationEngine._initialize_strategies`, entry 3. -/
def strategyParallelProcessing : OptimizationStrategy :=
  { type := OptimizationType.PARALLEL_EXECUTION
    name := "Parallel Processing"
    description := "Execute independent operations in parallel"
    applicable_to := ["agent", "chain"]
    estimated_savings := 0
    implementation_notes := "Identify independent operations for parallel execution"
    priority := 4 }

/-- `OptimizationEngine._initialize_strategies`, entry 4. -/
def strategyLoopPrevention : OptimizationStrategy :=
  { type := OptimizationType.LOOP_PREVENTION
    name := "Circular Call Prevention"
    description := "Prevent agent communication loops"
    applicable_to := ["agent", "groupchat"]
    estimated_savings := 25/100
    implementation_notes := "Detect and break circular dependencies"
    priority := 5 }

/-- `OptimizationEngine._initialize_strategies`, entry 5. -/
def strategyRequestBatching : OptimizationStrategy :=
  { type := OptimizationType.BATCH_PROCESSING
    name := "Request Batching"
    description := "Batch multiple requests together"
    applicable_to := ["llm", "chain"]
    estimated_savings := 1/10
    implementation_notes := "Combine multiple small requests"
    priority := 6 }

/-- The strategy catalog `OptimizationEngine.strategies`. -/
def strategies : List OptimizationStrategy :=
  [strategySmartModelRouting, strategyIntelligentCaching,
   strategyPromptOptimization, strategyParallelProcessing,
   strategyLoopPrevention, strategyRequestBatching]

/-- `OptimizationEngine.task_classifiers`, in dictionary insertion order. -/
def task_classifiers : List (String × List String) :=
  [("classification", ["classify", "categorize", "filter", "route", "check"]),
   ("formatting", ["format", "template", "structure", "parse", "convert"]),
   ("validation", ["validate", "verify", "check", "ensure", "confirm"]),
   ("extraction", ["extract", "find", "search", "locate", "identify"]),
   ("summarization", ["summarize", "tldr", "brief", "overview", "synopsis"]),
   ("generation", ["generate", "create", "write", "produce", "compose"]),
   ("analysis", ["analyze", "examine", "investigate", "study", "evaluate"]),
   ("qa", ["question", "answer", "ask", "respond", "query"])]

/-- Python `str.lower()` (the classifier keywords are ASCII, for which
per-character lower-casing coincides with Python's). -/
def strToLower (s : String) : String :=
  String.mk (s.data.map Char.toLower)

/-- First task category (in `task_classifiers` order) one of whose keywords
occurs in the given lower-cased text, if any. -/
def firstTaskMatch (text : String) : Option String :=
  task_classifiers.findSome? fun tk =>
    if tk.2.any (fun keyword => strContains text keyword) then some tk.1
    else none

/-- Python `component.metadata.get(key, '').lower()`: an absent key yields
the default `""`; a present string is returned; a present `None` or
non-string value makes `.lower()` raise `AttributeError` (`none`). The
lower-casing itself is applied by the caller. -/
def metaGetStrDefault (metadata : List (String × MetaVal)) (key : String) :
    Option String :=
  match metadata.lookup key with
  | none => some ""
  | some (MetaVal.str v) => some v
  | some MetaVal.null => none
  | some MetaVal.other => none

/-- `OptimizationEngine.classify_task`: match the component name, then (when
the metadata dictionary is non-empty) its system message and its prompt
template, against the ordered keyword sets; unmatched yields `"general"`.
`none` models the `AttributeError` raised when a present `system_message` /
`template` entry is not a string. -/
def classify_task (component : Component) : Option String :=
  match firstTaskMatch (strToLower component.name) with
  | some t => some t
  | none =>
    if component.metadata ≠ [] then
      match metaGetStrDefault component.metadata "system_message" with
      | none => none
      | some system_msg =>
        match firstTaskMatch (strToLower system_msg) with
        | some t => some t
        | none =>
          match metaGetStrDefault component.metadata "template" with
          | none => none
          | some template =>
            match firstTaskMatch (strToLower template) with
            | some t => some t
            | none => some "general"
    else some "general"

/-- The nested dictionary `OptimizationEngine.model_substitutions`:
`model_substitutions_table model task` is the entry when both the model key
and, within it, the task key are present. -/
def model_substitutions_table (current_model task_type : String) :
    Option String :=
  if current_model = "gpt-4" then
    if task_type = "classification" then some "claude-3-haiku"
    else if task_type = "formatting" then some "claude-3-haiku"
    else if task_type = "validation" then some "gpt-3.5-turbo"
    else if task_type = "extraction" then some "gpt-3.5-turbo"
    else if task_type = "summarization" then some "claude-3-sonnet"
    else none
  else if current_model = "gpt-3.5-turbo" then
    if task_type = "classification" then some "claude-3-haiku"
    else if task_type = "formatting" then some "claude-3-haiku"
    else none
  else if current_model = "claude-3-opus" then
    if task_type = "classification" then some "claude-3-haiku"
    else if task_type = "formatting" then some "claude-3-haiku"
    else if task_type = "validation" then some "claude-3-haiku"
    else if task_type = "extraction" then some "claude-3-sonnet"
    else none
  else none

/-- `OptimizationEngine.suggest_model_substitution`: table lookup first
(falling through to the general rules when the `(model, task)` pair has no
entry), then the general cheap-model rules. A component whose model is
absent — or the empty string, which is falsy in Python — yields no
suggestion. -/
def suggest_model_substitution (component : Component) (task_type : String) :
    Option String :=
  match component.model with
  | none => none
  | some current_model =>
    if current_model = "" then none
    else
      match model_substitutions_table current_model task_type with
      | some target => some target
      | none =>
        if task_type = "classification" ∨ task_type = "formatting"
            ∨ task_type = "validation" then
          if current_model = "gpt-4" ∨ current_model = "claude-3-opus" then
            some "claude-3-haiku"
          else if current_model = "gpt-3.5-turbo" then
            some "claude-3-haiku"
          else none
        else none

/-- A cache-opportunity dictionary produced by
`OptimizationEngine.identify_cache_opportunities`. -/
structure CacheOpportunity where
  component : String
  type : String
  task_type : String
  cache_potential : String
  estimated_hit_rate : ℚ
deriving Repr, DecidableEq

/-- `OptimizationEngine.identify_cache_opportunities`: classify every
component and report an opportunity for the high/medium/low-potential task
categories (none for `summarization` or `general`). `none` propagates the
`AttributeError` that `classify_task` can raise. -/
def identify_cache_opportunities : List Component →
    Option (List CacheOpportunity)
  | [] => some []
  | component :: rest => do
    let task_type ← classify_task component
    let rest' ← identify_cache_opportunities rest
    let entry : List CacheOpportunity :=
      if task_type = "classification" ∨ task_type = "validation"
          ∨ task_type = "formatting" then
        [{ component := component.name, type := component.type,
           task_type := task_type, cache_potential := "high",
           estimated_hit_rate := 3/10 }]
      else if task_type = "extraction" ∨ task_type = "qa" then
        [{ component := component.name, type := component.type,
           task_type := task_type, cache_potential := "medium",
           estimated_hit_rate := 15/100 }]
      else if task_type = "generation" ∨ task_type = "analysis" then
        [{ component := component.name, type := component.type,
           task_type := task_type, cache_potential := "low",
           estimated_hit_rate := 5/100 }]
      else []
    pure (entry ++ rest')

/-- The per-component loop state of `OptimizationEngine.optimize_workflow`
(lines 367-428): the best calculation so far, the (possibly combined)
optimization result, and the strategies recorded as applied. -/
structure OptState where
  best_calc : CostCalculation
  best_result : Option OptimizationResult
  applied : List OptimizationStrategy
deriving Repr, DecidableEq, Inhabited

/-- Step 1 of the per-component chain: model substitution, kept only when
the substituted calculation is strictly cheaper than the baseline. -/
def substitutionStep (component : Component) (original_calc : CostCalculation)
    (task_type : String) : OptState :=
  match suggest_model_substitution component task_type with
  | none => ⟨original_calc, none, []⟩
  | some suggested_model =>
    let res := applyModelSubstitution original_calc suggested_model
    if res.1.total_cost < original_calc.total_cost then
      ⟨res.1, some res.2, [strategySmartModelRouting]⟩
    else
      ⟨original_calc, none, []⟩

/-- Combine an accepted later optimization with the result accumulated so
far: savings are summed onto the existing result (whose `optimized_cost` is
left as it was), or the new result is taken when none was recorded yet. -/
def combineResult (prev : Option OptimizationResult)
    (new : OptimizationResult) : OptimizationResult :=
  match prev with
  | some r => { r with savings := r.savings + new.savings }
  | none => new

/-- Step 2 of the per-component chain: semantic caching when the component's
cache potential is high or medium, kept only when strictly cheaper;
accepted savings are combined with an already-recorded result. -/
def cachingStep (component : Component) (st : OptState) : Option OptState := do
  let cache_opps ← identify_cache_opportunities [component]
  match cache_opps with
  | [] => pure st
  | opp :: _ =>
    if opp.cache_potential = "high" ∨ opp.cache_potential = "medium" then do
      let res ← applyCaching st.best_calc opp.estimated_hit_rate
      if res.1.total_cost < st.best_calc.total_cost then
        pure ⟨res.1, some (combineResult st.best_result res.2),
          st.applied ++ [strategyIntelligentCaching]⟩
      else pure st
    else pure st

/-- Step 3 of the per-component chain: a fixed 20% token reduction for
summarization/extraction tasks, kept only when strictly cheaper; accepted
savings are combined with an already-recorded result. -/
def tokenReductionStep (task_type : String) (st : OptState) :
    Option OptState :=
  if task_type = "summarization" ∨ task_type = "extraction" then do
    let res ← applyTokenReduction st.best_calc (2/10)
    if res.1.total_cost < st.best_calc.total_cost then
      pure ⟨res.1, some (combineResult st.best_result res.2),
        st.applied ++ [strategyPromptOptimization]⟩
    else pure st
  else pure st

/-- The per-component optimization chain of
`OptimizationEngine.optimize_workflow`: classify, then greedily try model
substitution, caching and token reduction in that order. -/
def optimizeComponent (component : Component)
    (original_calc : CostCalculation) : Option OptState := do
  let task_type ← classify_task component
  let st1 := substitutionStep component original_calc task_type
  let st2 ← cachingStep component st1
  tokenReductionStep task_type st2

/-- The in-place token back-fill at the top of the baseline loop of
`optimize_workflow` (lines 336-345): `if not component.estimated_tokens:`
is true for an absent estimate and for an estimate equal to `0`, and the
type-based default is then written into the same component. -/
def backfillTokens (component : Component) : Component :=
  let falsy : Bool := match component.estimated_tokens with
    | none => true
    | some n => n = 0
  let defaultTokens : ℤ :=
    if component.type = "agent" then 1500
    else if component.type = "chain" then 1000
    else 500
  if falsy then
    { component with estimated_tokens := some defaultTokens }
  else component

/-- Python `component.model or 'gpt-3.5-turbo'`: `or` takes the default on
an absent model and on the falsy empty string. -/
def modelOrDefault (model : Option String) : String :=
  match model with
  | none => "gpt-3.5-turbo"
  | some m => if m = "" then "gpt-3.5-turbo" else m

/-- The baseline cost computed for an (already back-filled) component in
`optimize_workflow`: output tokens are estimated at 30% of input. -/
def baselineCalc (component : Component) : CostCalculation :=
  let tokens := component.estimated_tokens.getD 0
  calculate_cost tokens (pyInt ((tokens : ℚ) * (3/10)))
    (modelOrDefault component.model)

/-- A parallel-opportunity dictionary produced by
`OptimizationEngine.identify_parallel_opportunities`; the agent-group shape
uses `agents`, the chain shape uses `chains`. -/
structure ParallelOpportunity where
  ptype : String
  agents : List String := []
  chains : List String := []
  estimated_time_savings : ℚ
deriving Repr, DecidableEq

/-- The dependency map built from `chat` workflow patterns
(`from → [to, ...]`); keys and recorded targets are the raw
`pattern.get('from')` / `pattern.get('to')` values, which may be `None`. -/
def buildDependencies (workflow_patterns : List WorkflowPattern) :
    List (Option String × List (Option String)) :=
  workflow_patterns.foldl (fun deps pattern =>
    if pattern.ptype = "chat" then
      let rec insert :
          List (Option String × List (Option String)) →
          List (Option String × List (Option String))
        | [] => [(pattern.chat_from, [pattern.chat_to])]
        | entry :: rest =>
          if entry.1 = pattern.chat_from then
            (entry.1, entry.2 ++ [pattern.chat_to]) :: rest
          else entry :: insert rest
      insert deps
    else deps) []

/-- Python `dependencies.get(name, [])` with a string key against the
(possibly-`None`) keys of the dependency map. -/
def depsGet (deps : List (Option String × List (Option String)))
    (name : String) : List (Option String) :=
  match deps.lookup (some name) with
  | some targets => targets
  | none => []

/-- The greedy first-fit group placement of
`identify_parallel_opportunities`: append the agent to the first group none
of whose members' recorded targets include it; otherwise (the loop's `else`
branch) start a new group at the end. -/
def placeAgent (deps : List (Option String × List (Option String)))
    (agent : Component) :
    List (List Component) → List (List Component)
  | [] => [[agent]]
  | group :: rest =>
    if ¬ (group.any fun g => (depsGet deps g.name).contains (some agent.name))
    then (group ++ [agent]) :: rest
    else group :: placeAgent deps agent rest

/-- `OptimizationEngine.identify_parallel_opportunities`: group agents that
appear in no dependency edge source into greedy first-fit clusters and
report clusters of size > 1; report independent (non-sequential) chains as
one opportunity when more than one remains. -/
def identify_parallel_opportunities (components : List Component)
    (workflow_patterns : List WorkflowPattern) : List ParallelOpportunity :=
  let agent_components := components.filter (fun c => c.type = "agent")
  let agentOpps :=
    if agent_components.length > 1 then
      let deps := buildDependencies workflow_patterns
      let independent_groups := agent_components.foldl
        (fun groups agent =>
          if (deps.lookup (some agent.name)).isNone then
            placeAgent deps agent groups
          else groups) []
      independent_groups.filterMap fun group =>
        if group.length > 1 then
          some { ptype := "parallel_agents"
                 agents := group.map (fun a => a.name)
                 estimated_time_savings := 3/10 }
        else none
    else []
  let chain_components := components.filter (fun c => c.type = "chain")
  let chainOpps :=
    if chain_components.length > 1 then
      let sequential_chains :=
        ((workflow_patterns.filter (fun p => p.ptype = "sequential")).map
          (fun p => p.chains)).flatten
      let independent_chains := chain_components.filter
        (fun c => ¬ sequential_chains.contains c.name)
      if independent_chains.length > 1 then
        [{ ptype := "parallel_chains"
           chains := independent_chains.map (fun c => c.name)
           estimated_time_savings := 4/10 }]
      else []
    else []
  agentOpps ++ chainOpps

/-- The duplicate-strategy removal of `optimize_workflow` (lines 437-443):
keep the first occurrence of each strategy name. -/
def dedupStrategiesByName (seen : List String) :
    List OptimizationStrategy → List OptimizationStrategy
  | [] => []
  | s :: rest =>
    if seen.contains s.name then dedupStrategiesByName seen rest
    else s :: dedupStrategiesByName (s.name :: seen) rest

/-- Result of optimizing an entire workflow (`OptimizedWorkflow` in
`optimizer.py`); the natural-language `recommendations` strings are
display-only (Python float formatting) and omitted. -/
structure OptimizedWorkflow where
  original_components : List Component
  optimized_components : List Component
  original_calculations : List CostCalculation
  optimized_calculations : List CostCalculation
  optimization_results : List OptimizationResult
  total_original_cost : ℚ
  total_optimized_cost : ℚ
  total_savings : ℚ
  savings_percentage : ℚ
  strategies_applied : List OptimizationStrategy
  parallel_opportunities : List ParallelOpportunity
  cache_opportunities : List CacheOpportunity
deriving Repr, DecidableEq, Inhabited

/-- `OptimizationEngine.optimize_workflow`: back-fill token estimates in
place (the mutated list is what both `original_components` and
`optimized_components` alias), compute baseline costs, run the greedy
per-component optimization chain, and aggregate. `none` models an
uncaught exception from the chain. -/
def optimize_workflow (detection_result : DetectionResult) :
    Option OptimizedWorkflow := do
  let components := detection_result.components.map backfillTokens
  let original_calculations := components.map baselineCalc
  let total_original_cost :=
    (original_calculations.map (fun c => c.total_cost)).sum
  let states ← (components.zip original_calculations).mapM
    (fun p => optimizeComponent p.1 p.2)
  let optimized_calculations := states.map (fun st => st.best_calc)
  let optimization_results := states.filterMap (fun st => st.best_result)
  let strategies_applied :=
    dedupStrategiesByName [] ((states.map (fun st => st.applied)).flatten)
  let total_optimized_cost :=
    (optimized_calculations.map (fun c => c.total_cost)).sum
  let parallel_opportunities := identify_parallel_opportunities components
    detection_result.workflow_patterns
  let cache_opportunities ← identify_cache_opportunities components
  let total_savings := total_original_cost - total_optimized_cost
  let savings_percentage :=
    if total_original_cost > 0 then
      total_savings / total_original_cost * 100
    else 0
  pure
    { original_components := components
      optimized_components := components
      original_calculations := original_calculations
      optimized_calculations := optimized_calculations
      optimization_results := optimization_results
      total_original_cost := total_original_cost
      total_optimized_cost := total_optimized_cost
      total_savings := total_savings
      savings_percentage := savings_percentage
      strategies_applied := strategies_applied
      parallel_opportunities := parallel_opportunities
      cache_opportunities := cache_opportunities }

/-! ## Concrete evaluation vehicles

Concrete inputs on which the pipeline is evaluated in the theorems below,
together with the explicit values the embedding computes on them. -/

/-- A cost calculation whose total cost is zero (zero tokens). -/
def zeroCostCalc : CostCalculation := calculate_cost 0 0 "gpt-4"

/-- A file content carrying the AutoGen secondary signals `config_list`
and `gpt-4` (worth a +10 confidence bonus) but not the
`TERMINATE`/`initiate_chat` pair. -/
def autogenDemoContent : String :=
  "import autogen\nconfig_list = load()\nm = \"gpt-4\"\nrun()"

/-- The derived cost record produced by the caching optimization on a
1000-input-token `gpt-4` calculation at the default 15% hit rate. -/
def cachingDemoCalc : CostCalculation :=
  { input_tokens := 850, output_tokens := 0, model := "gpt-4",
    input_price_per_1k := 3/100, output_price_per_1k := 3/50,
    input_cost := 5103/500000, output_cost := 15309/1000000,
    total_cost := 5103/200000 }

/-- The savings summary accompanying `cachingDemoCalc`. -/
def cachingDemoResult : OptimizationResult :=
  { optimization_type := "caching", original_cost := 3/100,
    optimized_cost := 5103/200000, savings := 897/200000,
    savings_percent := 299/20 }

/-- An agent component whose name classifies it as a classification task
and whose model has a configured cheaper substitute. -/
def demoComponent : Component :=
  { name := "classify_docs", type := "agent", file_path := "workflow.py",
    line_number := 10, model := some "gpt-4", estimated_tokens := some 1500 }

/-- The baseline cost the engine computes for `demoComponent`
(1500 input tokens, 450 output tokens, `gpt-4` pricing). -/
def demoCalc : CostCalculation :=
  { input_tokens := 1500, output_tokens := 450, model := "gpt-4",
    input_price_per_1k := 3/100, output_price_per_1k := 3/50,
    input_cost := 9/200, output_cost := 27/1000, total_cost := 9/125 }

/-- The model-substituted calculation for `demoComponent`
(`claude-3-haiku` pricing on the same token counts). -/
def demoSubstCalc : CostCalculation :=
  { input_tokens := 1500, output_tokens := 450, model := "claude-3-haiku",
    input_price_per_1k := 1/4000, output_price_per_1k := 1/800,
    input_cost := 3/8000, output_cost := 9/16000, total_cost := 3/3200 }

/-- The substitution savings summary for `demoComponent`. -/
def demoSubstResult : OptimizationResult :=
  { optimization_type := "model_substitution", original_cost := 9/125,
    optimized_cost := 3/3200, savings := 1137/16000,
    savings_percent := 9475/96 }

/-- The cached calculation for `demoComponent` (30% hit rate applied on
top of the substituted calculation). -/
def demoCachedCalc : CostCalculation :=
  { input_tokens := 1050, output_tokens := 315, model := "claude-3-haiku",
    input_price_per_1k := 1/4000, output_price_per_1k := 1/800,
    input_cost := 549/2000000, output_cost := 1647/4000000,
    total_cost := 549/800000 }

/-- The combined (substitution + caching) result recorded for
`demoComponent`: the savings of both accepted steps are summed while
`optimized_cost` keeps the substitution-step value. -/
def demoCombinedResult : OptimizationResult :=
  { optimization_type := "model_substitution", original_cost := 9/125,
    optimized_cost := 3/3200, savings := 57051/800000,
    savings_percent := 9475/96 }

/-- The cache opportunity the engine reports for `demoComponent`. -/
def demoCacheOpportunity : CacheOpportunity :=
  { component := "classify_docs", type := "agent",
    task_type := "classification", cache_potential := "high",
    estimated_hit_rate := 3/10 }

/-- The final per-component chain state for `demoComponent`. -/
def demoOptState : OptState :=
  { best_calc := demoCachedCalc
    best_result := some demoCombinedResult
    applied := [strategySmartModelRouting, strategyIntelligentCaching] }

/-- A detection result containing just `demoComponent`. -/
def demoDetection : DetectionResult :=
  { framework := "autogen", confidence := FrameworkConfidence.HIGH,
    components := [demoComponent] }

/-- The optimized workflow built from `demoDetection`. -/
def demoWorkflow : OptimizedWorkflow :=
  { original_components := [demoComponent]
    optimized_components := [demoComponent]
    original_calculations := [demoCalc]
    optimized_calculations := [demoCachedCalc]
    optimization_results := [demoCombinedResult]
    total_original_cost := 9/125
    total_optimized_cost := 549/800000
    total_savings := 57051/800000
    savings_percentage := 6339/64
    strategies_applied := [strategySmartModelRouting, strategyIntelligentCaching]
    parallel_opportunities := []
    cache_opportunities := [demoCacheOpportunity] }

/-- An AutoGen-style agent component extracted without a system message:
the detector recorded an explicit estimate of `0` tokens and a metadata
entry `system_message = None`. -/
def zeroTokenAgent : Component :=
  { name := "agent_12", type := "agent", file_path := "a.py",
    line_number := 12, model := some "gpt-4", estimated_tokens := some 0,
    metadata := [("agent_type", MetaVal.str "AssistantAgent"),
                 ("system_message", MetaVal.null)] }

/-! ## Shared lemmas -/

/-- A string is a substring of itself followed by anything. -/
theorem strContains_append_left (a b : String) :
    strContains (a ++ b) a = true := by
  apply decide_eq_true
  refine ⟨[], b.data, ?_⟩
  simp [String.data_append]

/-- Substring containment is preserved by prepending. -/
theorem strContains_append_right (a b pat : String)
    (h : strContains b pat = true) : strContains (a ++ b) pat = true := by
  apply decide_eq_true
  have h' : pat.data <:+: b.data := of_decide_eq_true h
  obtain ⟨s, t, hst⟩ := h'
  exact ⟨a.data ++ s, t, by simp [String.data_append, ← hst, List.append_assoc]⟩

/-- Evaluation: the baseline cost computed for `demoComponent`. -/
theorem eval_demo_baseline : baselineCalc (backfillTokens demoComponent) = demoCalc := by
  simp [baselineCalc, backfillTokens, demoComponent, modelOrDefault, pyInt,
    calculate_cost, model_pricing, demoCalc]
  norm_num [Int.tdiv]

theorem eval_demo_classify : classify_task demoComponent = some "classification" := by
  decide

theorem eval_demo_substStep :
    substitutionStep demoComponent demoCalc "classification" =
      ⟨demoSubstCalc, some demoSubstResult, [strategySmartModelRouting]⟩ := by
  have hs : suggest_model_substitution demoComponent "classification" =
      some "claude-3-haiku" := by decide
  simp [substitutionStep, hs, applyModelSubstitution, calculate_cost,
    model_pricing, demoCalc, demoSubstCalc, demoSubstResult]
  norm_num

theorem eval_demo_cacheOpps :
    identify_cache_opportunities [demoComponent] = some [demoCacheOpportunity] := by
  have hn : demoComponent.name = "classify_docs" := rfl
  have ht : demoComponent.type = "agent" := rfl
  simp [identify_cache_opportunities, eval_demo_classify, demoCacheOpportunity,
    hn, ht]

theorem eval_demo_cachingStep :
    cachingStep demoComponent
      ⟨demoSubstCalc, some demoSubstResult, [strategySmartModelRouting]⟩ =
      some demoOptState := by
  simp [cachingStep, eval_demo_cacheOpps, demoCacheOpportunity, applyCaching,
    pydiv, pyInt, demoSubstCalc, demoSubstResult, demoOptState, demoCachedCalc,
    demoCombinedResult, combineResult]
  norm_num [Int.tdiv]

theorem eval_demo_tokenStep :
    tokenReductionStep "classification" demoOptState = some demoOptState := by
  simp [tokenReductionStep]

theorem eval_demo_optimizeComponent :
    optimizeComponent demoComponent demoCalc = some demoOptState := by
  simp [optimizeComponent, eval_demo_classify, eval_demo_substStep,
    eval_demo_cachingStep, eval_demo_tokenStep]

theorem eval_demo_workflow :
    optimize_workflow demoDetection = some demoWorkflow := by
  have hbf : backfillTokens demoComponent = demoComponent := by decide
  have hbc : baselineCalc demoComponent = demoCalc := by
    rw [← hbf]; exact eval_demo_baseline
  have ht : demoComponent.type = "agent" := rfl
  have hdedup : dedupStrategiesByName []
      [strategySmartModelRouting, strategyIntelligentCaching] =
      [strategySmartModelRouting, strategyIntelligentCaching] := by
    simp [dedupStrategiesByName, strategySmartModelRouting,
      strategyIntelligentCaching]
  have hmap : List.mapM.loop (fun p : Component × CostCalculation =>
      optimizeComponent p.1 p.2) [(demoComponent, demoCalc)] [] =
      some [demoOptState] := by
    simp [List.mapM.loop, eval_demo_optimizeComponent]
  simp [optimize_workflow, demoDetection, hbf, hbc, hmap,
    eval_demo_cacheOpps, identify_parallel_opportunities, ht, hdedup,
    demoWorkflow, demoOptState]
  norm_num [demoCalc, demoCachedCalc]

theorem eval_cachingDemo :
    applyCaching (calculate_cost 1000 0 "gpt-4") (15/100)
      = some (cachingDemoCalc, cachingDemoResult) := by
  simp [applyCaching, calculate_cost, model_pricing, pydiv, pyInt,
    cachingDemoCalc, cachingDemoResult]
  norm_num [Int.tdiv]

/-- What the model-substitution optimization records, by definition. -/
theorem applyModelSubstitution_spec (orig : CostCalculation) (m : String) :
    (applyModelSubstitution orig m).2.original_cost = orig.total_cost
    ∧ (applyModelSubstitution orig m).2.optimized_cost
        = (applyModelSubstitution orig m).1.total_cost
    ∧ (applyModelSubstitution orig m).2.savings
        = orig.total_cost - (applyModelSubstitution orig m).1.total_cost :=
  ⟨rfl, rfl, rfl⟩

/-- What a successful caching optimization records. -/
theorem applyCaching_spec (orig : CostCalculation) (rate : ℚ)
    (pr : CostCalculation × OptimizationResult)
    (h : applyCaching orig rate = some pr) :
    pr.2.original_cost = orig.total_cost
    ∧ pr.2.optimized_cost = pr.1.total_cost
    ∧ pr.2.savings = orig.total_cost - pr.1.total_cost := by
  by_cases h0 : orig.total_cost = 0
  · simp [applyCaching, pydiv, h0] at h
  · have he : applyCaching orig rate = some
        ({ input_tokens := pyInt ((orig.input_tokens : ℚ) * (1 - rate)),
           output_tokens := pyInt ((orig.output_tokens : ℚ) * (1 - rate)),
           model := orig.model,
           input_price_per_1k := orig.input_price_per_1k,
           output_price_per_1k := orig.output_price_per_1k,
           input_cost := ((1 - rate) * orig.total_cost + rate * (1/10000)) * (4/10),
           output_cost := ((1 - rate) * orig.total_cost + rate * (1/10000)) * (6/10),
           total_cost := (1 - rate) * orig.total_cost + rate * (1/10000) },
         { optimization_type := "caching",
           original_cost := orig.total_cost,
           optimized_cost := (1 - rate) * orig.total_cost + rate * (1/10000),
           savings := orig.total_cost
             - ((1 - rate) * orig.total_cost + rate * (1/10000)),
           savings_percent := (orig.total_cost
             - ((1 - rate) * orig.total_cost + rate * (1/10000)))
             / orig.total_cost * 100 }) := by
      simp [applyCaching, pydiv, h0]
    rw [he] at h
    obtain rfl : pr = _ := (Option.some.injEq _ _).mp h.symm
    exact ⟨rfl, rfl, rfl⟩

/-- What a successful token-reduction optimization records. -/
theorem applyTokenReduction_spec (orig : CostCalculation) (rate : ℚ)
    (pr : CostCalculation × OptimizationResult)
    (h : applyTokenReduction orig rate = some pr) :
    pr.2.original_cost = orig.total_cost
    ∧ pr.2.optimized_cost = pr.1.total_cost
    ∧ pr.2.savings = orig.total_cost - pr.1.total_cost := by
  by_cases h0 : orig.total_cost = 0
  · simp [applyTokenReduction, pydiv, h0] at h
  · have he : applyTokenReduction orig rate = some
        (calculate_cost (pyInt ((orig.input_tokens : ℚ) * (1 - rate)))
           (pyInt ((orig.output_tokens : ℚ) * (1 - rate))) orig.model,
         { optimization_type := "token_reduction",
           original_cost := orig.total_cost,
           optimized_cost := (calculate_cost
             (pyInt ((orig.input_tokens : ℚ) * (1 - rate)))
             (pyInt ((orig.output_tokens : ℚ) * (1 - rate)))
             orig.model).total_cost,
           savings := orig.total_cost - (calculate_cost
             (pyInt ((orig.input_tokens : ℚ) * (1 - rate)))
             (pyInt ((orig.output_tokens : ℚ) * (1 - rate)))
             orig.model).total_cost,
           savings_percent := (orig.total_cost - (calculate_cost
             (pyInt ((orig.input_tokens : ℚ) * (1 - rate)))
             (pyInt ((orig.output_tokens : ℚ) * (1 - rate)))
             orig.model).total_cost) / orig.total_cost * 100 }) := by
      simp [applyTokenReduction, pydiv, h0]
    rw [he] at h
    obtain rfl : pr = _ := (Option.some.injEq _ _).mp h.symm
    exact ⟨rfl, rfl, rfl⟩

/-- Case analysis of the substitution step: either nothing happens, or a
strictly cheaper substituted calculation replaces the baseline and the
routing strategy is recorded. -/
theorem substitutionStep_cases (c : Component) (oc : CostCalculation)
    (task : String) :
    substitutionStep c oc task = ⟨oc, none, []⟩ ∨
    ∃ m, suggest_model_substitution c task = some m ∧
      (applyModelSubstitution oc m).1.total_cost < oc.total_cost ∧
      substitutionStep c oc task =
        ⟨(applyModelSubstitution oc m).1,
         some (applyModelSubstitution oc m).2, [strategySmartModelRouting]⟩ := by
  rcases hs : suggest_model_substitution c task with _ | m
  · left
    simp [substitutionStep, hs]
  · by_cases hlt : (applyModelSubstitution oc m).1.total_cost < oc.total_cost
    · right
      exact ⟨m, rfl, hlt, by simp [substitutionStep, hs, hlt]⟩
    · left
      simp [substitutionStep, hs, hlt]

/-- Case analysis of the caching step: either the state is unchanged, or a
strictly cheaper cached calculation is accepted, its savings combined and
the caching strategy appended. -/
theorem cachingStep_cases (c : Component) (st st' : OptState)
    (h : cachingStep c st = some st') :
    st' = st ∨
    ∃ (res : CostCalculation × OptimizationResult) (rate : ℚ),
      applyCaching st.best_calc rate = some res ∧
      res.1.total_cost < st.best_calc.total_cost ∧
      st' = ⟨res.1, some (combineResult st.best_result res.2),
        st.applied ++ [strategyIntelligentCaching]⟩ := by
  rcases hop : identify_cache_opportunities [c] with _ | opps
  · simp [cachingStep, hop] at h
  · cases opps with
    | nil =>
      left
      simp [cachingStep, hop] at h
      exact h.symm
    | cons opp rest =>
      by_cases hpot : opp.cache_potential = "high" ∨ opp.cache_potential = "medium"
      · rcases happ : applyCaching st.best_calc opp.estimated_hit_rate with _ | res
        · simp [cachingStep, hop, hpot, happ] at h
        · by_cases hlt : res.1.total_cost < st.best_calc.total_cost
          · right
            refine ⟨res, opp.estimated_hit_rate, happ, hlt, ?_⟩
            simp [cachingStep, hop, hpot, happ, hlt] at h
            exact h.symm
          · left
            simp [cachingStep, hop, hpot, happ, hlt] at h
            exact h.symm
      · left
        simp [cachingStep, hop, hpot] at h
        exact h.symm

/-- Case analysis of the token-reduction step: either the state is
unchanged, or a strictly cheaper reduced calculation is accepted, its
savings combined and the prompt-optimization strategy appended. -/
theorem tokenReductionStep_cases (task : String) (st st' : OptState)
    (h : tokenReductionStep task st = some st') :
    st' = st ∨
    ∃ res : CostCalculation × OptimizationResult,
      applyTokenReduction st.best_calc (2/10) = some res ∧
      res.1.total_cost < st.best_calc.total_cost ∧
      st' = ⟨res.1, some (combineResult st.best_result res.2),
        st.applied ++ [strategyPromptOptimization]⟩ := by
  by_cases htask : task = "summarization" ∨ task = "extraction"
  · rcases happ : applyTokenReduction st.best_calc (2/10) with _ | res
    · simp [tokenReductionStep, htask, happ] at h
    · by_cases hlt : res.1.total_cost < st.best_calc.total_cost
      · right
        refine ⟨res, rfl, hlt, ?_⟩
        simp [tokenReductionStep, htask, happ, hlt] at h
        exact h.symm
      · left
        simp [tokenReductionStep, htask, happ, hlt] at h
        exact h.symm
  · left
    simp [tokenReductionStep, htask] at h
    exact h.symm

/-! ## Claim theorems -/

/-- C3: the spec defines a zero-cost baseline as yielding a 0% savings
percentage for every optimization type, never an arithmetic fault; but on a
`CostCalculation` with `total_cost = 0` the caching and token-reduction
optimizations hit the unguarded divisions at `calculator.py:349` and
`calculator.py:389` and raise `ZeroDivisionError` (modelled as `none`);
only model substitution is guarded and yields 0%. -/
theorem C3_zero_cost_division_fault :
    zeroCostCalc.total_cost = 0
    ∧ apply_optimization zeroCostCalc "caching" "" (15/100) (2/10) = none
    ∧ apply_optimization zeroCostCalc "token_reduction" "" (15/100) (2/10) = none
    ∧ apply_optimization zeroCostCalc "model_substitution" "claude-3-haiku"
        (15/100) (2/10)
      = some (applyModelSubstitution zeroCostCalc "claude-3-haiku")
    ∧ (applyModelSubstitution zeroCostCalc "claude-3-haiku").2.savings_percent
      = 0 := by
  have h0 : zeroCostCalc.total_cost = 0 := by
    simp [zeroCostCalc, calculate_cost, model_pricing]
  refine ⟨h0, ?_, ?_, ?_, ?_⟩
  · simp [apply_optimization, applyCaching, pydiv, h0]
  · simp [apply_optimization, applyTokenReduction, pydiv, h0]
  · simp [apply_optimization]
  · simp [applyModelSubstitution, h0]

/-- C5: the spec requires `confidence_score ∈ [0, 100]` for every
`DetectionResult` returned by `detect()`, and the base pipeline does cap
its score at 100 (`min(100, score)`); but `AutoGenDetector.detect` then
adds its framework-specific bonuses without clamping (and
`LangChainDetector.detect` likewise), so a repository whose base evidence
already scores 95 (an import, a config file and four code-pattern matches)
plus one file containing `config_list` and `gpt-4` is returned with
confidence score 105 > 100, contradicting the `# 0-100` documentation of
`DetectionResult.confidence_score` in `detectors/base.py`. -/
theorem C5_detector_bonus_exceeds_100 :
    (calculate_confidence 0 4 1 1).2 = 95
    ∧ autogen_confidence_bonus [autogenDemoContent] = 10
    ∧ (calculate_confidence 0 4 1 1).2
        + autogen_confidence_bonus [autogenDemoContent] = 105
    ∧ ¬ ((calculate_confidence 0 4 1 1).2
        + autogen_confidence_bonus [autogenDemoContent] ≤ 100) := by
  have h95 : (calculate_confidence 0 4 1 1).2 = 95 := by
    simp [calculate_confidence]
    norm_num
  have hc1 : strContains autogenDemoContent "config_list" = true := by decide
  have hc2 : strContains autogenDemoContent "gpt-4" = true := by decide
  have hc3 : strContains autogenDemoContent "TERMINATE" = false := by decide
  have hb : autogen_confidence_bonus [autogenDemoContent] = 10 := by
    simp [autogen_confidence_bonus, hc1, hc2, hc3]
  refine ⟨h95, hb, ?_, ?_⟩ <;> rw [h95, hb] <;> norm_num

/-- C8 counterexample: the claim says confidence 0.8 is returned exactly
for the operation types with a configured density multiplier, 0.6
otherwise; but `"foo"` has no configured multiplier and still gets 0.8 —
the source compares against the literal `'general'` only. -/
theorem C8_counterexample :
    token_rules "foo" = none
    ∧ "foo" ≠ "general"
    ∧ (estimate_tokens "" "foo").confidence = 8/10
    ∧ ¬ ((estimate_tokens "" "foo").confidence = 6/10) := by
  refine ⟨rfl, by decide, ?_, ?_⟩
  · simp [estimate_tokens]
  · simp [estimate_tokens]
    norm_num

/-- C8 (amended): `estimate_tokens` is a pure deterministic function of
`(text, operation_type)` — it is embedded as a function — and its
confidence is 0.8 for every operation type other than the literal
`"general"` (recognized or not) and 0.6 exactly for `"general"`. -/
theorem C8_confidence_amended (text operation_type : String) :
    (estimate_tokens text operation_type).confidence =
      if operation_type = "general" then 6/10 else 8/10 := by
  by_cases h : operation_type = "general" <;> simp [estimate_tokens, h]

/-- C6: an unknown model id never fails: `calculate_cost` silently falls
back to `gpt-3.5-turbo` pricing, annotates the model string (which
therefore contains both the original id and the fallback name), and
computes both costs from the fallback prices. -/
theorem C6_unknown_model_fallback (model : String) (it ot : ℤ)
    (h : model_pricing model = none) :
    (calculate_cost it ot model).model
        = model ++ " (using gpt-3.5-turbo pricing)"
    ∧ strContains (calculate_cost it ot model).model model = true
    ∧ strContains (calculate_cost it ot model).model "gpt-3.5-turbo" = true
    ∧ (calculate_cost it ot model).input_price_per_1k = 5/10000
    ∧ (calculate_cost it ot model).output_price_per_1k = 15/10000
    ∧ (calculate_cost it ot model).input_cost = ((it : ℚ)/1000) * (5/10000)
    ∧ (calculate_cost it ot model).output_cost
        = ((ot : ℚ)/1000) * (15/10000) := by
  have hm : (calculate_cost it ot model).model
      = model ++ " (using gpt-3.5-turbo pricing)" := by
    simp [calculate_cost, h]
  refine ⟨hm, ?_, ?_, by simp [calculate_cost, h], by simp [calculate_cost, h],
    by simp [calculate_cost, h], by simp [calculate_cost, h]⟩
  · rw [hm]
    exact strContains_append_left model _
  · rw [hm]
    exact strContains_append_right model _ _ (by decide)

/-- C6 witness: the spec's concrete example `"foo-model"`. -/
theorem C6_witness :
    model_pricing "foo-model" = none
    ∧ (calculate_cost 100 200 "foo-model").model
        = "foo-model" ++ " (using gpt-3.5-turbo pricing)"
    ∧ strContains (calculate_cost 100 200 "foo-model").model
        "gpt-3.5-turbo" = true
    ∧ (calculate_cost 100 200 "foo-model").input_price_per_1k = 5/10000 := by
  have h : model_pricing "foo-model" = none := rfl
  exact ⟨h, (C6_unknown_model_fallback "foo-model" 100 200 h).1,
    (C6_unknown_model_fallback "foo-model" 100 200 h).2.2.1,
    (C6_unknown_model_fallback "foo-model" 100 200 h).2.2.2.1⟩

/-- C1 counterexample: the caching optimization produces a
`CostCalculation` whose `input_cost` is a 40% share of the blended
expected cost (`calculator.py:339`), not `(input_tokens/1000) ×
input_price_per_1k`: on a 1000-input-token `gpt-4` calculation at a 15%
hit rate the record holds 850 input tokens priced at $0.03/1K — a
token-based cost of 0.0255 — but `input_cost = 0.010206`. -/
theorem C1_counterexample :
    applyCaching (calculate_cost 1000 0 "gpt-4") (15/100)
      = some (cachingDemoCalc, cachingDemoResult)
    ∧ cachingDemoCalc.input_cost ≠
        ((cachingDemoCalc.input_tokens : ℚ) / 1000)
          * cachingDemoCalc.input_price_per_1k := by
  refine ⟨eval_cachingDemo, ?_⟩
  simp [cachingDemoCalc]
  norm_num

/-- C1 (amended): every `CostCalculation` produced by `calculate_cost` —
and hence by the model-substitution and token-reduction optimizations and
the baseline pass, which all recompute through it — satisfies
`total_cost = input_cost + output_cost` and both token-based cost
equations exactly; the records produced by the caching optimization
satisfy `total_cost = input_cost + output_cost` (a 40/60 split of the
blended cost) but not the token-based equations. -/
theorem C1_cost_invariants :
    (∀ (it ot : ℤ) (model : String),
      (calculate_cost it ot model).total_cost
          = (calculate_cost it ot model).input_cost
            + (calculate_cost it ot model).output_cost
      ∧ (calculate_cost it ot model).input_cost
          = (((calculate_cost it ot model).input_tokens : ℚ) / 1000)
            * (calculate_cost it ot model).input_price_per_1k
      ∧ (calculate_cost it ot model).output_cost
          = (((calculate_cost it ot model).output_tokens : ℚ) / 1000)
            * (calculate_cost it ot model).output_price_per_1k)
    ∧ (∀ (orig : CostCalculation) (rate : ℚ)
        (pr : CostCalculation × OptimizationResult),
        applyCaching orig rate = some pr →
        pr.1.total_cost = pr.1.input_cost + pr.1.output_cost) := by
  constructor
  · intro it ot model
    exact ⟨rfl, rfl, rfl⟩
  · intro orig rate pr h
    by_cases h0 : orig.total_cost = 0
    · simp [applyCaching, pydiv, h0] at h
    · have he : applyCaching orig rate = some
          ({ input_tokens := pyInt ((orig.input_tokens : ℚ) * (1 - rate)),
             output_tokens := pyInt ((orig.output_tokens : ℚ) * (1 - rate)),
             model := orig.model,
             input_price_per_1k := orig.input_price_per_1k,
             output_price_per_1k := orig.output_price_per_1k,
             input_cost := ((1 - rate) * orig.total_cost + rate * (1/10000)) * (4/10),
             output_cost := ((1 - rate) * orig.total_cost + rate * (1/10000)) * (6/10),
             total_cost := (1 - rate) * orig.total_cost + rate * (1/10000) },
           { optimization_type := "caching",
             original_cost := orig.total_cost,
             optimized_cost := (1 - rate) * orig.total_cost + rate * (1/10000),
             savings := orig.total_cost
               - ((1 - rate) * orig.total_cost + rate * (1/10000)),
             savings_percent := (orig.total_cost
               - ((1 - rate) * orig.total_cost + rate * (1/10000)))
               / orig.total_cost * 100 }) := by
        simp [applyCaching, pydiv, h0]
      rw [he] at h
      obtain rfl : pr = _ := (Option.some.injEq _ _).mp h.symm
      simp
      ring

/-- C1 witness: the amended theorem applied to the concrete caching
record of `C1_counterexample`. -/
theorem C1_witness :
    (calculate_cost 1500 450 "gpt-4").total_cost
        = (calculate_cost 1500 450 "gpt-4").input_cost
          + (calculate_cost 1500 450 "gpt-4").output_cost
    ∧ cachingDemoCalc.total_cost
        = cachingDemoCalc.input_cost + cachingDemoCalc.output_cost := by
  refine ⟨(C1_cost_invariants.1 1500 450 "gpt-4").1, ?_⟩
  have h := C1_cost_invariants.2 (calculate_cost 1000 0 "gpt-4") (15/100)
    (cachingDemoCalc, cachingDemoResult) eval_cachingDemo
  simpa using h

/-- C4: for all match counts the base detector's returned score equals
`40·[config>0] + 35·[import>0] + min(20, 5·code) + min(5, 1·file)` capped
at 100; the tier is HIGH/MEDIUM/LOW at thresholds 75/40/10 of that score
and NONE below (witnessed at the exact boundary scores 75, 40, 10 and 9);
and one more matched config file, import, code pattern or file pattern
never decreases the score. -/
theorem C4_confidence_scoring (f c i g : ℕ) :
    ((calculate_confidence f c i g).2 =
      min 100 ((if 0 < g then (40:ℚ) else 0) + (if 0 < i then 35 else 0)
        + min 20 (5 * (c:ℚ)) + min 5 (1 * (f:ℚ))))
    ∧ ((calculate_confidence f c i g).1 =
        if (calculate_confidence f c i g).2 ≥ 75 then FrameworkConfidence.HIGH
        else if (calculate_confidence f c i g).2 ≥ 40 then
          FrameworkConfidence.MEDIUM
        else if (calculate_confidence f c i g).2 ≥ 10 then
          FrameworkConfidence.LOW
        else FrameworkConfidence.NONE)
    ∧ ((calculate_confidence f c i g).2 ≤ (calculate_confidence (f+1) c i g).2
        ∧ (calculate_confidence f c i g).2 ≤ (calculate_confidence f (c+1) i g).2
        ∧ (calculate_confidence f c i g).2 ≤ (calculate_confidence f c (i+1) g).2
        ∧ (calculate_confidence f c i g).2 ≤ (calculate_confidence f c i (g+1)).2)
    ∧ (calculate_confidence 0 0 1 1 = (FrameworkConfidence.HIGH, 75)
        ∧ calculate_confidence 0 0 0 1 = (FrameworkConfidence.MEDIUM, 40)
        ∧ calculate_confidence 0 2 0 0 = (FrameworkConfidence.LOW, 10)
        ∧ calculate_confidence 4 1 0 0 = (FrameworkConfidence.NONE, 9)) := by
  refine ⟨?_, ?_, ?_, ?_⟩
  · have hcode : (if c > 0 then min 20 ((c:ℚ) * 5) else 0)
        = min 20 (5 * (c:ℚ)) := by
      rcases Nat.eq_zero_or_pos c with h | h
      · subst h; norm_num
      · rw [if_pos h, mul_comm]
    have hfile : (if f > 0 then min 5 ((f:ℚ) * 1) else 0)
        = min 5 (1 * (f:ℚ)) := by
      rcases Nat.eq_zero_or_pos f with h | h
      · subst h; norm_num
      · rw [if_pos h, mul_comm]
    simp only [calculate_confidence, hcode, hfile]
  · have h40 : (if g > 0 then (40:ℚ) else 0) ≤ 40 := by split <;> norm_num
    have h35 : (if i > 0 then (35:ℚ) else 0) ≤ 35 := by split <;> norm_num
    have h20 : (if c > 0 then min 20 ((c:ℚ) * 5) else 0) ≤ 20 := by
      split
      · exact min_le_left _ _
      · norm_num
    have h5 : (if f > 0 then min 5 ((f:ℚ) * 1) else 0) ≤ 5 := by
      split
      · exact min_le_left _ _
      · norm_num
    have hle : (if g > 0 then (40:ℚ) else 0) + (if i > 0 then (35:ℚ) else 0)
        + (if c > 0 then min 20 ((c:ℚ) * 5) else 0)
        + (if f > 0 then min 5 ((f:ℚ) * 1) else 0) ≤ 100 := by
      have := add_le_add (add_le_add (add_le_add h40 h35) h20) h5
      linarith
    have hmin := min_eq_right hle
    simp only [calculate_confidence, hmin]
  · refine ⟨?_, ?_, ?_, ?_⟩ <;>
      simp only [calculate_confidence] <;>
      refine min_le_min le_rfl ?_
    · refine add_le_add le_rfl ?_
      rcases Nat.eq_zero_or_pos f with h | h
      · subst h
        simp only [Nat.lt_irrefl, if_neg (lt_irrefl 0)]
        refine le_min (by norm_num) ?_
        positivity
      · rw [if_pos h, if_pos (Nat.succ_pos f)]
        refine min_le_min le_rfl ?_
        push_cast
        linarith
    · refine add_le_add (add_le_add le_rfl ?_) le_rfl
      rcases Nat.eq_zero_or_pos c with h | h
      · subst h
        simp only [Nat.lt_irrefl, if_neg (lt_irrefl 0)]
        refine le_min (by norm_num) ?_
        positivity
      · rw [if_pos h, if_pos (Nat.succ_pos c)]
        refine min_le_min le_rfl ?_
        push_cast
        linarith
    · refine add_le_add (add_le_add (add_le_add le_rfl ?_) le_rfl) le_rfl
      rcases Nat.eq_zero_or_pos i with h | h
      · subst h
        simp
      · rw [if_pos h, if_pos (Nat.succ_pos i)]
    · refine add_le_add (add_le_add (add_le_add ?_ le_rfl) le_rfl) le_rfl
      rcases Nat.eq_zero_or_pos g with h | h
      · subst h
        simp
      · rw [if_pos h, if_pos (Nat.succ_pos g)]
  · refine ⟨?_, ?_, ?_, ?_⟩ <;>
      simp [calculate_confidence, Prod.ext_iff] <;> norm_num

/-- C9: `optimize_workflow` places the same (in-place back-filled)
component list in both `original_components` and `optimized_components`
(`optimizer.py:462-463` passes the very same `components` object to both
fields), so the token back-fill performed during baseline costing is
visible through both fields. -/
theorem C9_components_alias (d : DetectionResult) (w : OptimizedWorkflow)
    (h : optimize_workflow d = some w) :
    w.original_components = w.optimized_components
    ∧ w.original_components = d.components.map backfillTokens := by
  simp only [optimize_workflow, Option.bind_eq_bind, Option.bind_eq_some] at h
  obtain ⟨states, hs, co, hc, hw⟩ := h
  obtain rfl : _ = w := (Option.some.injEq _ _).mp hw
  exact ⟨rfl, rfl⟩

/-- C9 witness: the alias property on the concrete `demoDetection`. -/
theorem C9_witness :
    optimize_workflow demoDetection = some demoWorkflow
    ∧ demoWorkflow.original_components = demoWorkflow.optimized_components
    ∧ demoWorkflow.original_components
        = demoDetection.components.map backfillTokens := by
  exact ⟨eval_demo_workflow, C9_components_alias demoDetection demoWorkflow
    eval_demo_workflow⟩

/-- C10: the back-fill in `optimize_workflow` uses Python truthiness
(`if not component.estimated_tokens:`), so a component whose
`estimated_tokens` equals `0` is treated exactly like one with no estimate
at all and is overwritten in place with the type-based default (1500 for
an agent, 1000 for a chain, 500 otherwise) — even though
`AutoGenDetector._extract_agent_info` legitimately produces an estimate of
`0` for an agent created without a system message. -/
theorem C10_zero_estimate_backfilled (component : Component) :
    backfillTokens { component with estimated_tokens := some 0 }
      = backfillTokens { component with estimated_tokens := none }
    ∧ (component.estimated_tokens = some 0 →
        (backfillTokens component).estimated_tokens =
          some (if component.type = "agent" then 1500
                else if component.type = "chain" then 1000 else 500))
    ∧ autogen_agent_estimated_tokens none = 0 := by
  refine ⟨?_, ?_, rfl⟩
  · simp [backfillTokens]
  · intro h
    simp [backfillTokens, h]

/-- C10 witness: an AutoGen agent extracted without a system message
(explicit 0-token estimate) is back-filled to the 1500-token agent
default. -/
theorem C10_witness :
    zeroTokenAgent.estimated_tokens = some 0
    ∧ (backfillTokens zeroTokenAgent).estimated_tokens = some 1500 := by
  refine ⟨rfl, ?_⟩
  have h := (C10_zero_estimate_backfilled zeroTokenAgent).2.1 rfl
  simpa using h

/-- C7: the engine keeps a model substitution — replacing the baseline
calculation and recording the Smart Model Routing strategy — only when a
substitute model was suggested and the substituted calculation's total
cost is strictly below the baseline (`optimizer.py:387`); a substitution
to a more expensive (or equally priced) model is never selected. -/
theorem C7_substitution_only_if_cheaper (c : Component)
    (oc : CostCalculation) (st : OptState)
    (h : optimizeComponent c oc = some st)
    (hmem : strategySmartModelRouting ∈ st.applied) :
    match classify_task c with
    | none => False
    | some task =>
      match suggest_model_substitution c task with
      | none => False
      | some m =>
        (applyModelSubstitution oc m).1.total_cost < oc.total_cost := by
  rcases h1 : classify_task c with _ | task
  · simp [optimizeComponent, h1] at h
  · simp only [optimizeComponent, h1, Option.bind_eq_bind, Option.some_bind,
      Option.bind_eq_some] at h
    obtain ⟨st2, hc, ht⟩ := h
    have hname2 : strategySmartModelRouting.name
        ≠ strategyPromptOptimization.name := by decide
    have hname1 : strategySmartModelRouting.name
        ≠ strategyIntelligentCaching.name := by decide
    have hmem2 : strategySmartModelRouting ∈ st2.applied := by
      rcases tokenReductionStep_cases task st2 st ht with rfl | ⟨res, _, _, rfl⟩
      · exact hmem
      · rcases List.mem_append.mp hmem with h' | h'
        · exact h'
        · exact absurd (congrArg OptimizationStrategy.name
            (List.mem_singleton.mp h')) hname2
    have hmem1 : strategySmartModelRouting
        ∈ (substitutionStep c oc task).applied := by
      rcases cachingStep_cases c (substitutionStep c oc task) st2 hc with
        rfl | ⟨res, rate, _, _, rfl⟩
      · exact hmem2
      · rcases List.mem_append.mp hmem2 with h' | h'
        · exact h'
        · exact absurd (congrArg OptimizationStrategy.name
            (List.mem_singleton.mp h')) hname1
    rcases substitutionStep_cases c oc task with heq | ⟨m, hs, hlt, heq⟩
    · rw [heq] at hmem1
      simp at hmem1
    · dsimp only
      simp only [hs]
      exact hlt

/-- C7 witness: on `demoComponent` the routing strategy is recorded and
the substituted `claude-3-haiku` calculation is indeed strictly cheaper
than the `gpt-4` baseline. -/
theorem C7_witness :
    optimizeComponent demoComponent demoCalc = some demoOptState
    ∧ strategySmartModelRouting ∈ demoOptState.applied
    ∧ (match classify_task demoComponent with
       | none => False
       | some task =>
         match suggest_model_substitution demoComponent task with
         | none => False
         | some m =>
           (applyModelSubstitution demoCalc m).1.total_cost
             < demoCalc.total_cost) := by
  have hm : strategySmartModelRouting ∈ demoOptState.applied := by
    simp [demoOptState]
  exact ⟨eval_demo_optimizeComponent, hm,
    C7_substitution_only_if_cheaper demoComponent demoCalc demoOptState
      eval_demo_optimizeComponent hm⟩

/-- C2 counterexample: chaining strategies breaks the invariant — on
`demoComponent` both model substitution and caching are accepted, the
engine sums their savings into one result but never updates its
`optimized_cost` (`optimizer.py:407`), so the accumulated result placed in
`optimization_results` has `savings = 0.07131375` while
`original_cost - optimized_cost = 0.072 - 0.0009375 = 0.0710625`. -/
theorem C2_counterexample :
    optimize_workflow demoDetection = some demoWorkflow
    ∧ demoWorkflow.optimization_results = [demoCombinedResult]
    ∧ ¬ (demoCombinedResult.savings
        = demoCombinedResult.original_cost
          - demoCombinedResult.optimized_cost) := by
  refine ⟨eval_demo_workflow, rfl, ?_⟩
  simp [demoCombinedResult]
  norm_num

/-- C2 (amended): every `OptimizationResult` returned directly by a single
`apply_optimization` call satisfies `savings = original_cost -
optimized_cost`; for the per-component chain of `optimize_workflow`,
an accumulated result instead satisfies `original_cost = baseline cost`
and `savings = baseline cost - final best calculation's cost` — its
`optimized_cost` keeps the value of the first accepted step, so the
stated invariant fails for it whenever a later strategy is also
accepted. -/
theorem C2_savings_invariant :
    (∀ (orig : CostCalculation) (optimization_type target_model : String)
        (cache_hit_rate reduction_rate : ℚ)
        (pr : CostCalculation × OptimizationResult),
      apply_optimization orig optimization_type target_model
          cache_hit_rate reduction_rate = some pr →
      pr.2.savings = pr.2.original_cost - pr.2.optimized_cost)
    ∧ (∀ (c : Component) (oc : CostCalculation) (st : OptState)
        (r : OptimizationResult),
      optimizeComponent c oc = some st →
      st.best_result = some r →
      r.original_cost = oc.total_cost
      ∧ r.savings = oc.total_cost - st.best_calc.total_cost) := by
  constructor
  · intro orig optimization_type target_model cache_hit_rate reduction_rate pr h
    unfold apply_optimization at h
    split at h
    · obtain rfl : _ = pr := (Option.some.injEq _ _).mp h
      rfl
    · split at h
      · have hs := applyCaching_spec orig cache_hit_rate pr h
        rw [hs.1, hs.2.1, hs.2.2]
      · split at h
        · have hs := applyTokenReduction_spec orig reduction_rate pr h
          rw [hs.1, hs.2.1, hs.2.2]
        · obtain rfl : _ = pr := (Option.some.injEq _ _).mp h
          simp
  · intro c oc st r h hbr
    rcases h1 : classify_task c with _ | task
    · simp [optimizeComponent, h1] at h
    · simp only [optimizeComponent, h1, Option.bind_eq_bind, Option.some_bind,
        Option.bind_eq_some] at h
      obtain ⟨st2, hc, ht⟩ := h
      have inv1 : ((substitutionStep c oc task).best_result = none →
            (substitutionStep c oc task).best_calc = oc)
          ∧ ∀ r0, (substitutionStep c oc task).best_result = some r0 →
              r0.original_cost = oc.total_cost
              ∧ r0.savings = oc.total_cost
                - (substitutionStep c oc task).best_calc.total_cost := by
        rcases substitutionStep_cases c oc task with heq | ⟨m, hs, hlt, heq⟩
        · rw [heq]
          exact ⟨fun _ => rfl, fun r0 hr0 => by simp at hr0⟩
        · rw [heq]
          refine ⟨fun hn => by simp at hn, fun r0 hr0 => ?_⟩
          obtain rfl : _ = r0 := (Option.some.injEq _ _).mp hr0
          exact ⟨rfl, rfl⟩
      have inv2 : (st2.best_result = none → st2.best_calc = oc)
          ∧ ∀ r0, st2.best_result = some r0 →
              r0.original_cost = oc.total_cost
              ∧ r0.savings = oc.total_cost - st2.best_calc.total_cost := by
        rcases cachingStep_cases c (substitutionStep c oc task) st2 hc with
          rfl | ⟨res, rate, happ, hlt, rfl⟩
        · exact inv1
        · have hspec := applyCaching_spec (substitutionStep c oc task).best_calc
            rate res happ
          refine ⟨fun hn => by simp at hn, fun r0 hr0 => ?_⟩
          obtain rfl : _ = r0 := (Option.some.injEq _ _).mp hr0
          rcases hb1 : (substitutionStep c oc task).best_result with _ | r1
          · have hbc := inv1.1 hb1
            simp only [combineResult, hb1]
            refine ⟨by rw [hspec.1, hbc], ?_⟩
            rw [hspec.2.2, hbc]
          · have hr1 := inv1.2 r1 hb1
            simp only [combineResult, hb1]
            refine ⟨hr1.1, ?_⟩
            dsimp only
            rw [hr1.2, hspec.2.2]
            ring
      have inv3 : (st.best_result = none → st.best_calc = oc)
          ∧ ∀ r0, st.best_result = some r0 →
              r0.original_cost = oc.total_cost
              ∧ r0.savings = oc.total_cost - st.best_calc.total_cost := by
        rcases tokenReductionStep_cases task st2 st ht with
          rfl | ⟨res, happ, hlt, rfl⟩
        · exact inv2
        · have hspec := applyTokenReduction_spec st2.best_calc (2/10) res happ
          refine ⟨fun hn => by simp at hn, fun r0 hr0 => ?_⟩
          obtain rfl : _ = r0 := (Option.some.injEq _ _).mp hr0
          rcases hb2 : st2.best_result with _ | r2
          · have hbc := inv2.1 hb2
            simp only [combineResult, hb2]
            exact ⟨by rw [hspec.1, hbc], by rw [hspec.2.2, hbc]⟩
          · have hr2 := inv2.2 r2 hb2
            simp only [combineResult, hb2]
            refine ⟨hr2.1, ?_⟩
            dsimp only
            rw [hr2.2, hspec.2.2]
            ring
      exact inv3.2 r hbr

/-- C2 witness: the amended theorem applied to a single caching
application and to the accumulated result of `demoComponent`. -/
theorem C2_witness :
    (cachingDemoResult.savings
      = cachingDemoResult.original_cost - cachingDemoResult.optimized_cost)
    ∧ (demoCombinedResult.original_cost = demoCalc.total_cost
      ∧ demoCombinedResult.savings
          = demoCalc.total_cost - demoOptState.best_calc.total_cost) := by
  constructor
  · have hdisp : apply_optimization (calculate_cost 1000 0 "gpt-4") "caching"
        "" (15/100) (2/10) = some (cachingDemoCalc, cachingDemoResult) := by
      simp [apply_optimization, eval_cachingDemo]
    have h := C2_savings_invariant.1 (calculate_cost 1000 0 "gpt-4")
      "caching" "" (15/100) (2/10) (cachingDemoCalc, cachingDemoResult) hdisp
    simpa using h
  · exact C2_savings_invariant.2 demoComponent demoCalc demoOptState
      demoCombinedResult eval_demo_optimizeComponent rfl
